import Mathlib

/-!
Verification of the HealthAI contextual safety and prompt-assembly pipeline.

This file gives a shallow embedding, in Lean 4, of the core pipeline of the
HealthAI repository: the safety classifier (`backend/ai/safety_checker.py`),
the prompt composer (`backend/ai/prompt_builder.py`,
`backend/ai/prompt_templates.py`), the context aggregator
(`backend/services/medical_context_service.py`) and the conversational
orchestrator (`backend/services/enhanced_chat_service.py`), together with
proofs of the testable properties stated in the specification.

Text is modelled as `List Char` (`Str`); Python's `str.lower` is modelled on
the ASCII range, which covers every pattern and keyword table in the source.
Python exceptions are modelled with `Except`; the storage and completion
collaborators are explicit parameters, as the specification's design notes
require.
-/

namespace HealthAI

set_option maxRecDepth 100000

/-- Text: Python strings modelled as lists of characters. -/
abbrev Str := List Char

/-- Coerce a Lean string literal to `Str`. -/
def str (s : String) : Str := s.data

/-- ASCII lower-casing of one character, the fragment of Python's
`str.lower` exercised by the source's keyword and pattern tables. -/
def lowerChar (c : Char) : Char :=
  if 'A' ≤ c ∧ c ≤ 'Z' then Char.ofNat (c.toNat + 32) else c

/-- `text.lower()`. -/
def lowerStr (s : Str) : Str := s.map lowerChar

/-- Boolean prefix test. -/
def isPrefixB : Str → Str → Bool
  | [], _ => true
  | _ :: _, [] => false
  | a :: as, b :: bs => (a == b) && isPrefixB as bs

/-- Boolean substring test: Python's `needle in hay`. -/
def isSubB (needle : Str) : Str → Bool
  | [] => isPrefixB needle []
  | c :: rest => isPrefixB needle (c :: rest) || isSubB needle rest

/-- Number of starting positions at which `needle` occurs in `hay`. -/
def countOcc (needle : Str) : Str → Nat
  | [] => if isPrefixB needle [] then 1 else 0
  | c :: rest =>
    (if isPrefixB needle (c :: rest) then 1 else 0) + countOcc needle rest

theorem isPrefixB_iff (n h : Str) : isPrefixB n h = true ↔ n <+: h := by
  induction n generalizing h with
  | nil => simp [isPrefixB]
  | cons a as ih =>
    cases h with
    | nil => simp [isPrefixB]
    | cons b bs =>
      simp [isPrefixB, List.cons_prefix_cons, ih, Bool.and_eq_true,
        beq_iff_eq, And.comm]

theorem isSubB_iff (n h : Str) : isSubB n h = true ↔ n <:+: h := by
  induction h with
  | nil =>
    simp [isSubB, isPrefixB_iff]
  | cons c rest ih =>
    simp [isSubB, Bool.or_eq_true, isPrefixB_iff, ih]
    exact (List.infix_cons_iff).symm

/-- Python's `"x".join` / `"\n".join`. -/
def joinSep (sep : Str) : List Str → Str
  | [] => []
  | [x] => x
  | x :: y :: rest => x ++ sep ++ joinSep sep (y :: rest)

/-- Python's `str.split(c)`: `length (split_on c l) = count c l + 1`. -/
def split_on (c : Char) : Str → List Str
  | [] => [[]]
  | x :: xs =>
    if x = c then [] :: split_on c xs
    else
      match split_on c xs with
      | [] => [[x]]
      | h :: t => (x :: h) :: t

/-- ASCII whitespace, the fragment of Python's `str.strip`/`\s` class used
by the source (all stripped text in the source is ASCII). -/
def isSpaceB (c : Char) : Bool :=
  c == ' ' || c == '\t' || c == '\n' || c == '\x0d' || c == '\x0b' || c == '\x0c'

/-- Python's `str.strip()`. -/
def pyStrip (s : Str) : Str :=
  ((s.dropWhile isSpaceB).reverse.dropWhile isSpaceB).reverse

/-- `str(value)` for an optional integer field of a context dict:
`None` renders as `"None"`. -/
def pyStrOfOptNat : Option Nat → Str
  | some n => (Nat.repr n).data
  | none => str "None"

/-- `str(value)` for an optional string field of a context dict. -/
def pyStrOfOptStr : Option Str → Str
  | some v => v
  | none => str "None"

/-!
## Data model

The dict-shaped patient context built by
`MedicalContextService.get_patient_context` (src/backend/services/
medical_context_service.py).  Every context dict produced by the service
carries all of its keys, so the dicts are embedded as records; a key whose
stored value is Python `None` is an `Option` field.  Timestamps are carried
as their already-formatted ISO strings; the date filtering itself lives in
the repository collaborators, which are out of scope per the specification.
-/

/-- One entry of `patient_context["medical_history"]`
(`_get_medical_history_list`). -/
structure CondCtx where
  condition_name : Str
  status : Str
  severity : Option Str
  diagnosed_date : Option Str
deriving DecidableEq

/-- One entry of `patient_context["current_medications"]`
(`_get_current_medications_list`). -/
structure MedCtx where
  medication_name : Str
  dosage : Str
  frequency : Str
  route : Str
deriving DecidableEq

/-- One entry of `patient_context["allergies"]` (`_get_allergies_list`). -/
structure AllergyCtx where
  allergen : Str
  allergen_type : Option Str
  reaction : Option Str
  severity : Str
deriving DecidableEq

/-- One entry of `patient_context["recent_symptoms"]`
(`_get_recent_symptoms_list`). -/
structure SymCtx where
  symptom_description : Str
  severity : Option Nat
  logged_at : Option Str
  body_part : Option Str
deriving DecidableEq

/-- One entry of `patient_context["conversation_context"]`
(`_get_conversation_context_list`; the unread `timestamp` key is elided). -/
structure ConvCtx where
  message : Str
  response : Str
deriving DecidableEq

/-- The aggregate context dict returned by `get_patient_context`. -/
structure PatientContext where
  user_id : Option Nat
  age : Option Nat
  gender : Option Str
  full_name : Option Str
  medical_history : List CondCtx
  current_medications : List MedCtx
  allergies : List AllergyCtx
  recent_symptoms : List SymCtx
  conversation_context : List ConvCtx
deriving DecidableEq

/-- The dict returned by `MedicalSafetyChecker.check_response`
(src/backend/ai/safety_checker.py). -/
structure SafetyResult where
  has_concerns : Bool
  flags : List Str
  severity : Str
  recommendations : List Str
deriving DecidableEq

/-!
## Safety classifier — `backend/ai/safety_checker.py`
-/

/-- `MedicalSafetyChecker.EMERGENCY_KEYWORDS`. -/
def EMERGENCY_KEYWORDS : List Str :=
  [str "chest pain",
   str "difficulty breathing",
   str "severe bleeding",
   str "loss of consciousness",
   str "severe headache",
   str "stroke symptoms",
   str "heart attack",
   str "suicidal",
   str "severe allergic reaction",
   str "anaphylaxis",
   str "seizure",
   str "severe abdominal pain",
   str "coughing blood",
   str "sudden vision loss",
   str "severe burns",
   str "poisoning",
   str "overdose"]

/-- `MedicalSafetyChecker.detect_emergency_symptoms`: first keyword match
short-circuits, which is `List.any`. -/
def detect_emergency_symptoms (text : Str) : Bool :=
  EMERGENCY_KEYWORDS.any fun keyword => isSubB keyword (lowerStr text)

/-- Tokens of the prescription-pattern regexes: literal characters and the
`\d+`, `\s*`, `\s+`, `\w+` classes, which are the only constructs the
source's `MEDICATION_PRESCRIPTION_PATTERNS` use. -/
inductive RTok
  | lit (c : Char)
  | digits
  | spaces0
  | spaces1
  | word
deriving DecidableEq

/-- `\d` on ASCII. -/
def isDigitB (c : Char) : Bool := '0' ≤ c && c ≤ '9'

/-- `\w` on ASCII. -/
def isWordB (c : Char) : Bool :=
  ('a' ≤ c && c ≤ 'z') || ('A' ≤ c && c ≤ 'Z') || isDigitB c || c == '_'

/-- One backtracking matching step.  In mode `none`, match the token list
against a prefix of `s`, case-insensitively (`re.IGNORECASE`; the
patterns' literals are lower case).  In mode `some p`, consume one or more
characters satisfying `p` (a backtracking `X+` / the tail of `X*`), then
match the token list.  `fuel` only bounds the recursion so that the
function is structurally recursive; every step consumes a character or a
token, so `ts.length + s.length + 1` fuel is always enough. -/
def matchRun : Nat → Option (Char → Bool) → List RTok → Str → Bool
  | 0, _, _, _ => false
  | f + 1, some p, ts, s =>
    match s with
    | [] => false
    | x :: s' => p x && (matchRun f none ts s' || matchRun f (some p) ts s')
  | f + 1, none, ts, s =>
    match ts, s with
    | [], _ => true
    | .lit _ :: _, [] => false
    | .lit c :: ts', x :: s' => (lowerChar x == c) && matchRun f none ts' s'
    | .digits :: ts', s => matchRun f (some isDigitB) ts' s
    | .spaces0 :: ts', s => matchRun f none ts' s || matchRun f (some isSpaceB) ts' s
    | .spaces1 :: ts', s => matchRun f (some isSpaceB) ts' s
    | .word :: ts', s => matchRun f (some isWordB) ts' s

/-- Match a token list against a prefix of `s`. -/
def matchToks (ts : List RTok) (s : Str) : Bool :=
  matchRun (ts.length + s.length + 1) none ts s

/-- `re.search`: the pattern may match starting at any position. -/
def reSearch (pat : List RTok) : Str → Bool
  | [] => matchToks pat []
  | x :: s => matchToks pat (x :: s) || reSearch pat s

/-- Literal regex characters. -/
def lits (s : String) : List RTok := s.data.map RTok.lit

/-- `MedicalSafetyChecker.MEDICATION_PRESCRIPTION_PATTERNS`, in source
order: `take \d+\s*mg`, `prescribe \w+`, `dosage of \d+`,
`start taking \w+`, `\d+\s*mg\s+of\s+\w+`, `you should take \w+`. -/
def MEDICATION_PRESCRIPTION_PATTERNS : List (List RTok) :=
  [lits "take " ++ [.digits, .spaces0] ++ lits "mg",
   lits "prescribe " ++ [.word],
   lits "dosage of " ++ [.digits],
   lits "start taking " ++ [.word],
   [.digits, .spaces0] ++ lits "mg" ++ [.spaces1] ++ lits "of" ++ [.spaces1, .word],
   lits "you should take " ++ [.word]]

/-- `MedicalSafetyChecker._check_medication_prescription`. -/
def check_medication_prescription (response : Str) : Bool :=
  MEDICATION_PRESCRIPTION_PATTERNS.any fun pattern => reSearch pattern response

/-- The flag string built by `_check_allergy_conflicts` for one hit:
`f"⚠️ ALLERGY ALERT: Patient allergic to {allergen} ({severity})"`
(`allergen` already lower-cased by the caller). -/
def allergy_flag (allergen severity : Str) : Str :=
  str "⚠️ ALLERGY ALERT: Patient allergic to " ++ allergen ++ str " (" ++ severity ++ str ")"

/-- `MedicalSafetyChecker._check_allergy_conflicts`: one flag per allergy
whose (truthy, i.e. non-empty) lower-cased allergen occurs in the
lower-cased response. -/
def check_allergy_conflicts (response : Str) (patient_context : PatientContext) : List Str :=
  patient_context.allergies.filterMap fun allergy =>
    let allergen := lowerStr allergy.allergen
    if !allergen.isEmpty && isSubB allergen (lowerStr response) then
      some (allergy_flag allergen allergy.severity)
    else
      none

/-- The interaction-reminder flag text. -/
def interaction_flag : Str :=
  str "Response should remind patient to discuss with doctor about current medications"

/-- `MedicalSafetyChecker._check_medication_interactions`. -/
def check_medication_interactions (response : Str) (patient_context : PatientContext) : List Str :=
  if !patient_context.current_medications.isEmpty &&
      [str "treatment", str "medication", str "drug", str "medicine"].any
        (fun word => isSubB word (lowerStr response)) then
    [interaction_flag]
  else
    []

/-- `MedicalSafetyChecker._needs_emergency_disclaimer`. -/
def needs_emergency_disclaimer (response : Str) : Bool :=
  [str "severe", str "serious", str "emergency", str "urgent",
   str "immediate", str "critical"].any
    fun keyword => isSubB keyword (lowerStr response)

/-- `MedicalSafetyChecker._generate_recommendations`: one designated
recommendation per flag category, where a category is detected by a
case-insensitive substring test over the flag texts. -/
def generate_recommendations (flags : List Str) : List Str :=
  (if flags.any (fun flag => isSubB (str "prescription") (lowerStr flag)) then
    [str "Remove specific medication names and dosages. Use general medication classes instead."]
  else []) ++
  (if flags.any (fun flag => isSubB (str "allergy") (lowerStr flag)) then
    [str "Add prominent allergy warning at the beginning of response."]
  else []) ++
  (if flags.any (fun flag => isSubB (str "interaction") (lowerStr flag)) then
    [str "Add reminder to discuss with healthcare provider about current medications."]
  else []) ++
  (if flags.any (fun flag => isSubB (str "emergency") (lowerStr flag)) then
    [str "Add clear guidance on when to seek emergency medical care."]
  else [])

/-- The prescription-language flag text. -/
def prescription_flag : Str :=
  str "Response contains medication prescription language"

/-- The emergency-disclaimer flag text. -/
def disclaimer_flag : Str :=
  str "Response should include emergency care disclaimer"

/-- `MedicalSafetyChecker.check_response`: the four sub-checks run in source
order, accumulating flags and escalating severity exactly as the Python
assignments do. -/
def check_response (response : Str) (patient_context : PatientContext) : SafetyResult :=
  let prescr := check_medication_prescription response
  let flags := if prescr then [prescription_flag] else []
  let severity := if prescr then str "high" else str "low"
  let allergy_conflicts := check_allergy_conflicts response patient_context
  let flags := flags ++ allergy_conflicts
  let severity := if allergy_conflicts.isEmpty then severity else str "high"
  let interaction_warnings := check_medication_interactions response patient_context
  let flags := flags ++ interaction_warnings
  let severity :=
    if interaction_warnings.isEmpty then severity
    else if severity == str "low" then str "medium" else severity
  let disc := needs_emergency_disclaimer response
  let flags := flags ++ (if disc then [disclaimer_flag] else [])
  let severity :=
    if disc then (if severity == str "low" then str "medium" else severity) else severity
  { has_concerns := !flags.isEmpty
    flags := flags
    severity := severity
    recommendations := generate_recommendations flags }

/-!
## Warning generator — `SafetyWarningGenerator` in
`backend/ai/safety_checker.py`, and the finalization steps of
`backend/services/enhanced_chat_service.py`.
-/

/-- The emergency-care warning block. -/
def emergency_warning_text : Str :=
  str "\n\n🚨 **IMPORTANT**: If you experience severe or worsening symptoms, seek immediate medical attention by calling emergency services or going to the nearest emergency room.\n"

/-- `SafetyWarningGenerator.add_emergency_warning`: prepends. -/
def add_emergency_warning (response : Str) : Str :=
  emergency_warning_text ++ response

/-- The medication-safety disclaimer block. -/
def medication_disclaimer_text : Str :=
  str "\n\n⚕️ **MEDICATION REMINDER**: Never start, stop, or change medications without consulting your healthcare provider. This information is for educational purposes only.\n"

/-- `SafetyWarningGenerator.add_medication_disclaimer`: appends. -/
def add_medication_disclaimer (response : Str) : Str :=
  response ++ medication_disclaimer_text

/-- The allergy-specific alert block. -/
def allergy_alert_text (allergen severity : Str) : Str :=
  str "\n\n⚠️ **ALLERGY ALERT**: Your medical records show you have a " ++
    severity ++ str " allergy to " ++ allergen ++
    str ". Please inform all healthcare providers about this allergy.\n"

/-- `SafetyWarningGenerator.add_allergy_alert`: prepends. -/
def add_allergy_alert (response : Str) (allergen severity : Str) : Str :=
  allergy_alert_text allergen severity ++ response

/-- The general medical disclaimer block. -/
def general_disclaimer_text : Str :=
  str "\n\n---\n*This information is for educational purposes only and is not a substitute for professional medical advice, diagnosis, or treatment. Always consult your healthcare provider with any questions about your health.*"

/-- `SafetyWarningGenerator.add_general_disclaimer`: appends. -/
def add_general_disclaimer (response : Str) : Str :=
  response ++ general_disclaimer_text

/-- The block `EnhancedChatService._add_safety_warnings` prepends for one
allergy-alert flag, `f"\n\n‚ö†Ô∏è {flag}\n\n"` (the marker characters are
reproduced byte-for-byte from the source). -/
def allergy_block (flag : Str) : Str :=
  str "\n\n‚ö†Ô∏è " ++ flag ++ str "\n\n"

/-- The guard of the flag loop in `_add_safety_warnings`:
`"ALLERGY ALERT" in flag` and `len(flag.split(":")) > 1` (the computed
`allergen_info` is never used). -/
def allergy_block_guard (flag : Str) : Bool :=
  isSubB (str "ALLERGY ALERT") flag && decide ((split_on ':' flag).length > 1)

/-- `EnhancedChatService._add_safety_warnings`: prepend one block per
allergy-alert flag (loop order = left fold), then prepend the emergency
warning when severity is high.  The `patient_context` parameter is unread
in the source. -/
def add_safety_warnings (response : Str) (safety_result : SafetyResult)
    (_patient_context : PatientContext) : Str :=
  let warnings_added := safety_result.flags.foldl
    (fun acc flag => if allergy_block_guard flag then allergy_block flag ++ acc else acc)
    response
  if safety_result.severity == str "high" then add_emergency_warning warnings_added
  else warnings_added

/-- Steps 6–7 of `send_contextual_message`: safety warnings, then the
general disclaimer. -/
def finalize_chat (response : Str) (safety_result : SafetyResult)
    (patient_context : PatientContext) : Str :=
  add_general_disclaimer (add_safety_warnings response safety_result patient_context)

/-- The canned emergency payload of
`EnhancedChatService._handle_emergency_response` (byte-for-byte, including
the leading newline and the trailing indentation of the triple-quoted
literal). -/
def emergency_response_text : Str :=
  str "\nüö® **EMERGENCY - SEEK IMMEDIATE MEDICAL ATTENTION** üö®\n\nYour symptoms may indicate a medical emergency. Please:\n\n1. **Call emergency services (911) immediately** or go to the nearest emergency room\n2. Do NOT wait or try to treat this at home\n3. If alone, call someone to be with you or unlock your door for emergency responders\n\n**While waiting for help:**\n- Stay calm\n- Sit or lie down in a comfortable position\n- Do not eat or drink anything\n- Have your medication list ready if possible\n\n**This is NOT the time for online medical advice. Get professional help NOW.**\n\n---\n*If this is not an emergency, please rephrase your question and I\x27ll be happy to help.*\n        "

/-!
## Prompt composer — `backend/ai/prompt_templates.py` and
`backend/ai/prompt_builder.py`

`str.format` is embedded as a scanner over the template: literal characters
are copied, `\x7bname\x7d` placeholders are substituted from the keyword
list, and a placeholder whose name is not among the keywords raises
`KeyError`, exactly as Python does.  (The source's templates contain no
`\x7b\x7b` escapes and no format specs, so those parts of `str.format` are
out of scope.)
-/

/-- Python exceptions surfaced by the embedded pipeline. -/
inductive PyErr
  | keyError (name : Str)
  | serviceError (msg : Str)
  | valueError
deriving DecidableEq

/-- Keyword-argument lookup of `str.format`. -/
def lookupKw (name : Str) : List (Str × Str) → Option Str
  | [] => none
  | (k, v) :: rest => if name = k then some v else lookupKw name rest

/-- The scanner of `template.format(**kwargs)`.  With state `none` it
copies literal text; an opening brace switches to state `some acc`, which
accumulates the replacement-field name (reversed) until the closing brace,
then substitutes the named keyword (or raises `KeyError`, as Python does
for a placeholder with no matching keyword argument).  An unterminated
field is Python's `ValueError`. -/
def pfRun (kwargs : List (Str × Str)) (template : Str) : Option Str → Str → Except PyErr Str :=
  List.rec (motive := fun _ => Option Str → Str → Except PyErr Str)
    (fun st out =>
      match st with
      | none => .ok out.reverse
      | some _ => .error .valueError)
    (fun c _rest ih st out =>
      match st with
      | none =>
        if c = '\x7b' then ih (some []) out
        else ih none (c :: out)
      | some acc =>
        if c = '\x7d' then
          match lookupKw acc.reverse kwargs with
          | none => .error (.keyError acc.reverse)
          | some v => ih none (v.reverse ++ out)
        else ih (some (c :: acc)) out)
    template

/-- `str.format` with keyword arguments. -/
def python_format (template : Str) (kwargs : List (Str × Str)) : Except PyErr Str :=
  pfRun kwargs template none []

theorem pfRun_nil (kwargs : List (Str × Str)) (out : Str) :
    pfRun kwargs [] none out = .ok out.reverse := rfl

theorem pfRun_cons_none (kwargs : List (Str × Str)) (c : Char) (rest out : Str) :
    pfRun kwargs (c :: rest) none out =
      if c = '\x7b' then pfRun kwargs rest (some []) out
      else pfRun kwargs rest none (c :: out) := rfl

theorem pfRun_cons_some (kwargs : List (Str × Str)) (c : Char) (rest acc out : Str) :
    pfRun kwargs (c :: rest) (some acc) out =
      (if c = '\x7d' then
        match lookupKw acc.reverse kwargs with
        | none => .error (.keyError acc.reverse)
        | some v => pfRun kwargs rest none (v.reverse ++ out)
      else pfRun kwargs rest (some (c :: acc)) out) := rfl

/-- `MedicalPromptTemplates.SYSTEM_PROMPT` (byte-for-byte). -/
def SYSTEM_PROMPT : Str :=
  str "You are Dr. HealthAI, an experienced and compassionate medical professional with 20+ years of clinical experience across multiple specialties.\n\nYOUR ROLE AND RESPONSIBILITIES:\n- Provide detailed, comprehensive medical guidance and education\n- Ask intelligent clarifying questions when information is incomplete\n- Consider the patient\x27s complete medical history and personal context\n- Explain complex medical concepts in clear, patient-friendly language\n- Always prioritize patient safety above all else\n- Show empathy and understanding for patient concerns\n\nRESPONSE QUALITY STANDARDS:\n- Provide thorough responses (minimum 300-500 words for complex questions)\n- Use clear, structured formatting with sections and bullet points\n- Include specific, actionable recommendations\n- Ask 2-3 relevant follow-up questions to gather more information\n- Provide context and reasoning for your recommendations\n- Include relevant warnings and red flags\n\nRESPONSE STRUCTURE:\n1. **Assessment**: Acknowledge and analyze the patient\x27s concern\n2. **Medical Information**: Provide relevant medical background\n3. **Recommendations**: Specific, actionable next steps\n4. **Follow-up Questions**: 2-3 clarifying questions\n5. **Safety Reminders**: When to seek immediate care\n\nCRITICAL SAFETY RULES:\n- NEVER prescribe specific medications or dosages\n- ALWAYS ask about allergies before suggesting any treatments\n- IMMEDIATELY flag emergency symptoms (chest pain, difficulty breathing, severe bleeding, etc.)\n- Remind patients this is educational guidance, not a replacement for in-person medical care\n- If uncertain or if symptoms are serious, strongly recommend consulting a healthcare provider\n- Consider drug interactions with current medications\n- Account for patient\x27s age, gender, and medical history in all recommendations\n\nPATIENT CONTEXT AVAILABLE:\n- Age: {age}\n- Gender: {gender}\n- Medical History: {medical_history}\n- Current Medications: {current_medications}\n- Known Allergies: {allergies}\n- Recent Symptoms: {recent_symptoms}\n- Previous Conversations: {conversation_context}\n\nCOMMUNICATION STYLE:\n- Professional yet warm and approachable\n- Use medical terminology but always explain it\n- Show empathy and validate patient concerns\n- Be thorough but not overwhelming\n- Encourage questions and patient engagement\n\nRemember: You are a trusted medical advisor providing education and guidance, always keeping patient safety as the top priority."

/-- `MedicalPromptTemplates.SYMPTOM_ANALYSIS_PROMPT` (byte-for-byte). -/
def SYMPTOM_ANALYSIS_PROMPT : Str :=
  str "The patient presents with the following symptoms:\n{symptoms}\n\nPATIENT CONTEXT:\n- Age: {age}, Gender: {gender}\n- Medical History: {medical_history}\n- Current Medications: {current_medications}\n- Known Allergies: {allergies}\n\nYOUR TASK: Conduct a comprehensive symptom analysis following this structure:\n\n1. **INITIAL ASSESSMENT** (100-150 words)\n   - Acknowledge the patient\x27s concerns with empathy\n   - Provide initial thoughts on the symptoms\n   - Note any immediate red flags or concerning patterns\n\n2. **CLARIFYING QUESTIONS** (Ask 4-6 specific questions)\n   Essential information to gather:\n   - **Onset**: When did symptoms start? How quickly did they develop?\n   - **Duration**: How long have symptoms persisted? Any changes over time?\n   - **Severity**: On a scale of 1-10, how severe? Impact on daily activities?\n   - **Location**: Where exactly? Does it radiate or move?\n   - **Quality**: Describe the sensation (sharp, dull, throbbing, burning, etc.)\n   - **Timing**: Constant or intermittent? Any pattern to occurrence?\n   - **Context**: What were you doing when it started? Any triggers?\n   - **Associated Symptoms**: Any other symptoms? Fever, nausea, fatigue?\n   - **Modifying Factors**: What makes it better? What makes it worse?\n   - **Previous Episodes**: Ever experienced this before?\n\n3. **DIFFERENTIAL DIAGNOSIS** (200-300 words)\n   Based on available information, discuss:\n   - Most likely conditions (with estimated likelihood)\n   - Less common but possible conditions\n   - Conditions that should be ruled out\n   - Why certain conditions fit or don\x27t fit the symptom pattern\n   - Relevant medical background for each condition\n\n4. **IMMEDIATE RECOMMENDATIONS** (150-200 words)\n   - Self-care measures that are safe to try\n   - Symptom monitoring guidelines\n   - Over-the-counter options (if appropriate and safe)\n   - Lifestyle modifications\n   - What to avoid\n\n5. **RED FLAGS & URGENT CARE INDICATORS** (100-150 words)\n   Seek immediate medical attention if:\n   - List specific warning signs\n   - Symptoms that indicate emergency\n   - Time-sensitive situations\n\n6. **NEXT STEPS** (100 words)\n   - When to schedule a doctor\x27s appointment\n   - What information to bring to the appointment\n   - Additional tests that might be needed\n   - Expected timeline for improvement\n\n7. **FOLLOW-UP QUESTIONS FOR PATIENT**\n   Ask 2-3 specific questions to gather more critical information.\n\nSAFETY CHECKS:\n- Flag any emergency symptoms immediately\n- Consider patient\x27s medical history and medications\n- Check for allergy concerns\n- Note any contraindications\n\nRemember: Be thorough, empathetic, and safety-focused. If symptoms suggest anything serious, strongly recommend immediate medical evaluation."

/-- `MedicalPromptTemplates.TREATMENT_PLAN_PROMPT` (byte-for-byte). -/
def TREATMENT_PLAN_PROMPT : Str :=
  str "Generate a comprehensive, personalized treatment and wellness plan for: {condition}\n\nPATIENT PROFILE:\n- Age: {age}\n- Gender: {gender}\n- Medical History: {medical_history}\n- Current Medications: {current_medications}\n- Known Allergies: {allergies}\n- Lifestyle Factors: {lifestyle_factors}\n\nCOMPREHENSIVE TREATMENT PLAN STRUCTURE:\n\n1. **CONDITION OVERVIEW** (150-200 words)\n   - What is this condition in clear, understandable terms\n   - Why it occurs (pathophysiology explained simply)\n   - How common it is\n   - Typical course and prognosis\n   - Factors that influence outcomes\n\n2. **TREATMENT GOALS** (100 words)\n   - Short-term goals (immediate relief)\n   - Medium-term goals (symptom management)\n   - Long-term goals (prevention and optimal health)\n\n3. **LIFESTYLE MODIFICATIONS** (200-300 words)\n   \n   **Dietary Recommendations:**\n   - Foods to emphasize\n   - Foods to limit or avoid\n   - Meal timing and frequency\n   - Hydration guidelines\n   - Specific nutrients to focus on\n   \n   **Physical Activity:**\n   - Recommended types of exercise\n   - Frequency and duration\n   - Intensity levels appropriate for condition\n   - Activities to avoid\n   - Progression plan\n   \n   **Sleep Hygiene:**\n   - Optimal sleep duration\n   - Sleep environment recommendations\n   - Bedtime routine suggestions\n   \n   **Stress Management:**\n   - Stress reduction techniques\n   - Relaxation practices\n   - Mind-body interventions\n\n4. **MEDICAL MANAGEMENT** (200-250 words)\n   \n   **General Medication Classes** (NO specific drugs or dosages):\n   - Types of medications commonly used\n   - How they work\n   - General considerations\n   - Important questions to ask your doctor about medications\n   \n   **Potential Interactions:**\n   - Considerations with current medications: {current_medications}\n   - Allergy considerations: {allergies}\n   - Important drug-food interactions\n   \n   **What to Discuss with Your Healthcare Provider:**\n   - Specific medication options\n   - Dosing strategies\n   - Monitoring requirements\n   - Side effects to watch for\n\n5. **MONITORING & TRACKING** (150 words)\n   - Symptoms to track daily/weekly\n   - Measurements to record\n   - Journaling recommendations\n   - When to measure (timing)\n   - Tools or apps that might help\n\n6. **WARNING SIGNS & WHEN TO SEEK CARE** (150 words)\n   \n   **Seek Immediate Medical Attention If:**\n   - Emergency warning signs\n   - Severe symptom escalation\n   \n   **Schedule Urgent Appointment If:**\n   - Moderate concerning symptoms\n   - Treatment not working\n   \n   **Routine Follow-up:**\n   - Recommended follow-up schedule\n   - What to report to doctor\n\n7. **PATIENT EDUCATION & RESOURCES** (150 words)\n   - Key concepts to understand\n   - Common misconceptions to avoid\n   - Reliable resources for learning more\n   - Support groups or communities\n   - Questions to ask healthcare providers\n\n8. **PERSONALIZED CONSIDERATIONS** (100-150 words)\n   Based on patient\x27s specific context:\n   - Age-specific recommendations\n   - Gender-specific considerations\n   - Adaptations for medical history\n   - Modifications for current medications\n\n9. **TIMELINE & EXPECTATIONS** (100 words)\n   - When to expect improvement\n   - Realistic timeline for different goals\n   - What\x27s normal vs. concerning during treatment\n   - Long-term management expectations\n\nCRITICAL SAFETY REMINDERS:\n- This plan should be reviewed with a healthcare provider\n- Do NOT start any new medications without doctor approval\n- All recommendations should be personalized by your doctor\n- This is educational guidance, not a prescription\n- Regular medical supervision is essential\n\nRemember: Create a comprehensive, actionable plan that empowers the patient while emphasizing the importance of professional medical supervision."

/-- `PromptFormatter.format_medical_history`. -/
def format_medical_history (conditions : List CondCtx) : Str :=
  if conditions.isEmpty then str "No significant medical history reported"
  else
    joinSep (str "\n") (conditions.map fun condition =>
      str "- " ++ condition.condition_name ++ str " (" ++ condition.status ++ str ")")

/-- `PromptFormatter.format_medications` (each line is `.strip()`-ped). -/
def format_medications (medications : List MedCtx) : Str :=
  if medications.isEmpty then str "No current medications reported"
  else
    joinSep (str "\n") (medications.map fun med =>
      pyStrip (str "- " ++ med.medication_name ++ str " " ++ med.dosage ++ str " " ++ med.frequency))

/-- `PromptFormatter.format_allergies` (each line is `.strip()`-ped; a
`None` reaction renders as `"None"` under Python\x27s f-string). -/
def format_allergies (allergies : List AllergyCtx) : Str :=
  if allergies.isEmpty then str "No known allergies"
  else
    joinSep (str "\n") (allergies.map fun allergy =>
      pyStrip (str "- " ++ allergy.allergen ++ str " (" ++ allergy.severity ++ str "): " ++
        pyStrOfOptStr allergy.reaction))

/-- `PromptFormatter.format_recent_symptoms` (first 5 symptoms; a `None`
`logged_at` renders as `"None"`). -/
def format_recent_symptoms (symptoms : List SymCtx) : Str :=
  if symptoms.isEmpty then str "No recent symptoms logged"
  else
    joinSep (str "\n") ((symptoms.take 5).map fun symptom =>
      str "- " ++ pyStrOfOptStr symptom.logged_at ++ str ": " ++ symptom.symptom_description)

/-- `MedicalPromptBuilder.build_system_prompt`: `SYSTEM_PROMPT.format` with
the six keyword arguments the source supplies (the template\x27s
`conversation_context` placeholder is not among them). -/
def build_system_prompt (patient_context : PatientContext) : Except PyErr Str :=
  python_format SYSTEM_PROMPT
    [(str "age", pyStrOfOptNat patient_context.age),
     (str "gender", pyStrOfOptStr patient_context.gender),
     (str "medical_history", format_medical_history patient_context.medical_history),
     (str "current_medications", format_medications patient_context.current_medications),
     (str "allergies", format_allergies patient_context.allergies),
     (str "recent_symptoms", format_recent_symptoms patient_context.recent_symptoms)]

/-- `MedicalPromptBuilder.build_symptom_analysis_prompt` (the template\x27s
`allergies` placeholder is not among the supplied keywords). -/
def build_symptom_analysis_prompt (symptoms : Str) (patient_context : PatientContext) :
    Except PyErr Str :=
  python_format SYMPTOM_ANALYSIS_PROMPT
    [(str "symptoms", symptoms),
     (str "age", pyStrOfOptNat patient_context.age),
     (str "gender", pyStrOfOptStr patient_context.gender),
     (str "medical_history", format_medical_history patient_context.medical_history),
     (str "current_medications", format_medications patient_context.current_medications)]

/-- `MedicalPromptBuilder.build_treatment_plan_prompt` (the template\x27s
`lifestyle_factors` placeholder is not among the supplied keywords). -/
def build_treatment_plan_prompt (condition : Str) (patient_context : PatientContext) :
    Except PyErr Str :=
  python_format TREATMENT_PLAN_PROMPT
    [(str "condition", condition),
     (str "age", pyStrOfOptNat patient_context.age),
     (str "gender", pyStrOfOptStr patient_context.gender),
     (str "medical_history", format_medical_history patient_context.medical_history),
     (str "current_medications", format_medications patient_context.current_medications),
     (str "allergies", format_allergies patient_context.allergies)]

/-!
## Context aggregator — `backend/services/medical_context_service.py`

The medical data store is the external collaborator of §6 of the
specification.  Its row types mirror the ORM models; reads of the four
medical sub-sources are `Except`-valued so that a storage exception while
gathering is representable (`get_patient_context` must degrade, not raise).
The chat log is the append-only exchange list, newest first, as
`ChatRepository.get_user_history` orders by timestamp descending.
-/

/-- A `User` row (the fields read by `get_patient_context`). -/
structure UserRec where
  id : Nat
  age : Option Nat
  gender : Option Str
  full_name : Option Str
deriving DecidableEq

/-- A `MedicalCondition` row as returned by
`MedicalHistoryRepository.get_active_conditions` (dates already ISO). -/
structure CondRec where
  condition_name : Str
  status : Str
  severity : Option Str
  diagnosed_date : Option Str
deriving DecidableEq

/-- A `Medication` row as returned by
`MedicationRepository.get_active_medications`. -/
structure MedRec where
  medication_name : Str
  dosage : Str
  frequency : Str
  route : Str
deriving DecidableEq

/-- An `Allergy` row as returned by `AllergyRepository.get_by_user`. -/
structure AllergyRec where
  allergen : Str
  allergen_type : Option Str
  reaction : Option Str
  severity : Str
deriving DecidableEq

/-- A `SymptomLog` row as returned by
`SymptomRepository.get_recent_symptoms` (timestamps already ISO). -/
structure SymRec where
  symptom_description : Str
  severity : Option Nat
  logged_at : Option Str
  body_part : Option Str
deriving DecidableEq

/-- A `ChatHistory` row. -/
structure ChatRow where
  user_id : Nat
  message : Str
  response : Str
deriving DecidableEq

/-- A storage-collaborator error. -/
inductive DbErr
  | failure
deriving DecidableEq

/-- The storage collaborator: repository reads keyed by user id, and the
append-only chat log (newest exchange first). -/
structure Db where
  users : List UserRec
  active_conditions : Nat → Except DbErr (List CondRec)
  active_medications : Nat → Except DbErr (List MedRec)
  allergies : Nat → Except DbErr (List AllergyRec)
  recent_symptoms : Nat → Nat → Except DbErr (List SymRec)
  chats : List ChatRow

/-- `ChatRepository.get_user_history`: this user's exchanges, newest first,
capped at `limit`. -/
def get_user_history (db : Db) (user_id : Nat) (limit : Nat) : List ChatRow :=
  ((db.chats.filter fun row => row.user_id == user_id).take limit)

/-- `ChatRepository.add_message`: append one exchange to the log. -/
def add_message (db : Db) (user_id : Nat) (message response : Str) : Db :=
  { db with chats := ⟨user_id, message, response⟩ :: db.chats }

/-- `MedicalContextService._empty_context`. -/
def empty_context : PatientContext :=
  { user_id := none
    age := none
    gender := none
    full_name := none
    medical_history := []
    current_medications := []
    allergies := []
    recent_symptoms := []
    conversation_context := [] }

/-- The body of `get_patient_context`'s `try` after the user is found: the
five `_get_*_list` helpers (symptoms capped at 10, the last 30 days;
conversation capped at 5 exchanges with responses truncated to 200
characters). -/
def gather_context (db : Db) (user : UserRec) (user_id : Nat) :
    Except DbErr PatientContext := do
  let conds ← db.active_conditions user_id
  let meds ← db.active_medications user_id
  let alls ← db.allergies user_id
  let syms ← db.recent_symptoms user_id 30
  .ok
    { user_id := some user_id
      age := user.age
      gender := user.gender
      full_name := user.full_name
      medical_history := conds.map fun c =>
        ⟨c.condition_name, c.status, c.severity, c.diagnosed_date⟩
      current_medications := meds.map fun m =>
        ⟨m.medication_name, m.dosage, m.frequency, m.route⟩
      allergies := alls.map fun a =>
        ⟨a.allergen, a.allergen_type, a.reaction, a.severity⟩
      recent_symptoms := (syms.take 10).map fun s =>
        ⟨s.symptom_description, s.severity, s.logged_at, s.body_part⟩
      conversation_context := (get_user_history db user_id 5).map fun row =>
        ⟨row.message, row.response.take 200⟩ }

/-- `MedicalContextService.get_patient_context`: a missing user record or
any storage exception degrades to the empty context; the function itself
is total (never raises). -/
def get_patient_context (db : Db) (user_id : Nat) : PatientContext :=
  match db.users.find? (fun u => u.id == user_id) with
  | none => empty_context
  | some user =>
    match gather_context db user user_id with
    | .ok ctx => ctx
    | .error _ => empty_context

/-- `MedicalContextService.get_medical_history_summary` (no `try`: a
repository exception propagates). -/
def get_medical_history_summary (db : Db) (user_id : Nat) : Except DbErr Str := do
  let conditions ← db.active_conditions user_id
  if conditions.isEmpty then
    return str "No significant active medical conditions reported"
  return joinSep (str "\n") (conditions.map fun condition =>
    str "- " ++ condition.condition_name ++ str " (" ++ condition.status ++ str ")" ++
      (match condition.severity with
       | some sv => str " (" ++ sv ++ str ")"
       | none => []))

/-- `MedicalContextService.get_current_medications_summary`. -/
def get_current_medications_summary (db : Db) (user_id : Nat) : Except DbErr Str := do
  let medications ← db.active_medications user_id
  if medications.isEmpty then
    return str "No current medications reported"
  return joinSep (str "\n") (medications.map fun med =>
    pyStrip (str "- " ++ med.medication_name ++ str " " ++ med.dosage ++ str " " ++ med.frequency))

/-- `MedicalContextService.get_allergies_summary` (reaction truncated to 50
characters; a `None` reaction renders as the empty string here). -/
def get_allergies_summary (db : Db) (user_id : Nat) : Except DbErr Str := do
  let alls ← db.allergies user_id
  if alls.isEmpty then
    return str "No known allergies"
  return joinSep (str "\n") (alls.map fun allergy =>
    str "- " ++ allergy.allergen ++ str " (" ++ allergy.severity ++ str "): " ++
      (match allergy.reaction with
       | some reaction => reaction.take 50
       | none => []))

/-- `MedicalContextService.get_recent_symptoms_summary` (first 5 symptoms;
descriptions truncated to 100 characters; `strftime("%Y-%m-%d")` is the
first 10 characters of the ISO timestamp). -/
def get_recent_symptoms_summary (db : Db) (user_id : Nat) (days : Nat) : Except DbErr Str := do
  let symptoms ← db.recent_symptoms user_id days
  if symptoms.isEmpty then
    return str "No recent symptoms logged"
  return joinSep (str "\n") ((symptoms.take 5).map fun symptom =>
    str "- " ++
      (match symptom.logged_at with
       | some d => d.take 10
       | none => []) ++
      str ": " ++ symptom.symptom_description.take 100 ++
      (match symptom.severity with
       | some sv => str " (severity: " ++ (Nat.repr sv).data ++ str "/10)"
       | none => []))

/-!
## Conversational orchestrator — `backend/services/enhanced_chat_service.py`

The entry points return heterogeneous Python dicts, embedded as ordered
key/value lists.  The completion collaborator (`ai_client.chat_completion`)
is an explicit parameter taking the system prompt, the user message and the
token budget; its fixed `temperature=0.7` argument is elided.  Each entry
point returns the result dict together with the updated chat log, and the
`try`/`except` of the source is the `Except` match: a raise anywhere inside
the `try` yields the degraded-service dict and leaves the log untouched.
-/

/-- A Python dict value occurring in the entry-point results. -/
inductive PyVal
  | s (v : Str)
  | b (v : Bool)
  | ls (v : List Str)
deriving DecidableEq

/-- A Python result dict, in insertion order. -/
abbrev PyDict := List (Str × PyVal)

/-- Dict lookup. -/
def dget (d : PyDict) (key : Str) : Option PyVal :=
  (d.find? fun kv => kv.1 == key).map (·.2)

/-- The completion collaborator:
`chat_completion(system_prompt, user_message, max_tokens, ...)`, which may
raise. -/
abbrev Client := Str → Str → Nat → Except PyErr Str

/-- The dict returned by `_handle_emergency_response` (and, unchanged, by
the entry points that took the emergency path). -/
def emergency_dict (message : Str) : PyDict :=
  [(str "message", .s message),
   (str "response", .s emergency_response_text),
   (str "safety_flags", .ls [str "EMERGENCY_DETECTED"]),
   (str "has_emergency", .b true),
   (str "context_used", .b false)]

/-- `EnhancedChatService._handle_emergency_response`: persist the canned
payload, return the emergency dict. -/
def handle_emergency_response (db : Db) (user_id : Nat) (message : Str) : PyDict × Db :=
  (emergency_dict message, add_message db user_id message emergency_response_text)

/-- The degraded-service dict of `send_contextual_message`'s `except`. -/
def chat_error_dict (message : Str) : PyDict :=
  [(str "message", .s message),
   (str "response", .s (str "I apologize, but I encountered an error. Please try again or consult a healthcare provider.")),
   (str "safety_flags", .ls [str "Error occurred"]),
   (str "has_emergency", .b false),
   (str "context_used", .b false)]

/-- The `try` body of `send_contextual_message`: emergency check, context,
system prompt, completion call (token budget 1500), output safety check,
finalization, persistence. -/
def chat_pipeline (client : Client) (db : Db) (user_id : Nat) (message : Str) :
    Except PyErr (PyDict × Db) := do
  if detect_emergency_symptoms message then
    return handle_emergency_response db user_id message
  let patient_context := get_patient_context db user_id
  let system_prompt ← build_system_prompt patient_context
  let ai_response ← client system_prompt message 1500
  let safety_result := check_response ai_response patient_context
  let final_response := finalize_chat ai_response safety_result patient_context
  let db' := add_message db user_id message final_response
  return ([(str "message", .s message),
           (str "response", .s final_response),
           (str "safety_flags", .ls safety_result.flags),
           (str "has_emergency", .b false),
           (str "context_used", .b true),
           (str "severity", .s safety_result.severity)], db')

/-- `EnhancedChatService.send_contextual_message`. -/
def send_contextual_message (client : Client) (db : Db) (user_id : Nat) (message : Str) :
    PyDict × Db :=
  match chat_pipeline client db user_id message with
  | .ok r => r
  | .error _ => (chat_error_dict message, db)

/-- The degraded-service dict of `analyze_symptoms_with_context`'s
`except`. -/
def symptom_error_dict (symptoms : Str) : PyDict :=
  [(str "symptoms", .s symptoms),
   (str "analysis", .s (str "Unable to analyze symptoms. Please consult a healthcare provider.")),
   (str "safety_flags", .ls [str "Error occurred"]),
   (str "has_emergency", .b false)]

/-- The `try` body of `analyze_symptoms_with_context` (token budget
2000). -/
def symptom_pipeline (client : Client) (db : Db) (user_id : Nat) (symptoms : Str) :
    Except PyErr (PyDict × Db) := do
  if detect_emergency_symptoms symptoms then
    return handle_emergency_response db user_id symptoms
  let patient_context := get_patient_context db user_id
  let analysis_prompt ← build_symptom_analysis_prompt symptoms patient_context
  let system_prompt ← build_system_prompt patient_context
  let ai_analysis ← client system_prompt analysis_prompt 2000
  let safety_result := check_response ai_analysis patient_context
  let final_analysis := finalize_chat ai_analysis safety_result patient_context
  let db' := add_message db user_id (str "Symptom Analysis: " ++ symptoms) final_analysis
  return ([(str "symptoms", .s symptoms),
           (str "analysis", .s final_analysis),
           (str "safety_flags", .ls safety_result.flags),
           (str "has_emergency", .b false)], db')

/-- `EnhancedChatService.analyze_symptoms_with_context`. -/
def analyze_symptoms_with_context (client : Client) (db : Db) (user_id : Nat) (symptoms : Str) :
    PyDict × Db :=
  match symptom_pipeline client db user_id symptoms with
  | .ok r => r
  | .error _ => (symptom_error_dict symptoms, db)

/-- The degraded-service dict of `generate_treatment_plan_with_context`'s
`except`. -/
def treatment_error_dict (condition : Str) : PyDict :=
  [(str "condition", .s condition),
   (str "treatment_plan", .s (str "Unable to generate plan. Please consult a healthcare provider.")),
   (str "safety_flags", .ls [str "Error occurred"]),
   (str "personalized", .b false)]

/-- The `try` body of `generate_treatment_plan_with_context` (token budget
2500; note: no emergency check, and the medication disclaimer is appended
before the general one). -/
def treatment_pipeline (client : Client) (db : Db) (user_id : Nat) (condition : Str) :
    Except PyErr (PyDict × Db) := do
  let patient_context := get_patient_context db user_id
  let plan_prompt ← build_treatment_plan_prompt condition patient_context
  let system_prompt ← build_system_prompt patient_context
  let ai_plan ← client system_prompt plan_prompt 2500
  let safety_result := check_response ai_plan patient_context
  let final_plan := add_safety_warnings ai_plan safety_result patient_context
  let final_plan := add_general_disclaimer (add_medication_disclaimer final_plan)
  let db' := add_message db user_id (str "Treatment Plan Request: " ++ condition) final_plan
  return ([(str "condition", .s condition),
           (str "treatment_plan", .s final_plan),
           (str "safety_flags", .ls safety_result.flags),
           (str "personalized", .b true)], db')

/-- `EnhancedChatService.generate_treatment_plan_with_context`. -/
def generate_treatment_plan_with_context (client : Client) (db : Db) (user_id : Nat)
    (condition : Str) : PyDict × Db :=
  match treatment_pipeline client db user_id condition with
  | .ok r => r
  | .error _ => (treatment_error_dict condition, db)

/-!
## Concrete fixtures used by witnesses and counterexamples
-/

/-- A completion collaborator that always answers. -/
def sampleClient : Client := fun _ _ _ => .ok (str "ok")

/-- A store with one patient and no medical data. -/
def sampleDb : Db :=
  { users := [⟨1, some 30, some (str "female"), some (str "Jane Doe")⟩]
    active_conditions := fun _ => .ok []
    active_medications := fun _ => .ok []
    allergies := fun _ => .ok []
    recent_symptoms := fun _ _ => .ok []
    chats := [] }

/-- A store with no patients at all. -/
def emptyUsersDb : Db :=
  { users := []
    active_conditions := fun _ => .ok []
    active_medications := fun _ => .ok []
    allergies := fun _ => .ok []
    recent_symptoms := fun _ _ => .ok []
    chats := [] }

/-- A store whose condition sub-source raises. -/
def failingDb : Db :=
  { users := [⟨1, some 30, some (str "female"), some (str "Jane Doe")⟩]
    active_conditions := fun _ => .error .failure
    active_medications := fun _ => .ok []
    allergies := fun _ => .ok []
    recent_symptoms := fun _ _ => .ok []
    chats := [] }

/-- A context whose only data is one current medication. -/
def med_only_context : PatientContext :=
  { empty_context with
      current_medications := [⟨str "Lisinopril", str "10mg", str "daily", str "oral"⟩] }

/-- A severe penicillin allergy. -/
def penicillin_allergy : AllergyCtx :=
  ⟨str "penicillin", some (str "medication"), some (str "rash"), str "severe"⟩

/-- A context whose only data is one severe penicillin allergy. -/
def allergy_context : PatientContext :=
  { empty_context with allergies := [penicillin_allergy] }

/-!
## Helper lemmas
-/

theorem split_on_ne_nil (c : Char) (l : Str) : split_on c l ≠ [] := by
  induction l with
  | nil => simp [split_on]
  | cons x xs ih =>
    simp only [split_on]
    split
    · simp
    · cases h : split_on c xs with
      | nil => simp
      | cons y ys => simp

theorem split_on_length_gt_one (c : Char) (l : Str) (h : c ∈ l) :
    1 < (split_on c l).length := by
  induction l with
  | nil => cases h
  | cons x xs ih =>
    simp only [split_on]
    by_cases hx : x = c
    · simp only [hx, if_pos rfl, List.length_cons]
      have := split_on_ne_nil c xs
      cases hs : split_on c xs with
      | nil => exact absurd hs this
      | cons y ys => simp
    · have hmem : c ∈ xs := by
        cases h with
        | head => exact absurd rfl hx
        | tail _ h' => exact h'
      have := ih hmem
      simp only [if_neg hx]
      cases hs : split_on c xs with
      | nil => exact absurd hs (split_on_ne_nil c xs)
      | cons y ys =>
        rw [hs] at this
        simpa using this

/-- The flag loop of `_add_safety_warnings` only prepends: the initial
accumulator survives as a suffix. -/
theorem foldl_prepend_suffix (g : Str → Bool) (blk : Str → Str) :
    ∀ (flags : List Str) (acc : Str),
      ∃ p, flags.foldl (fun a f => if g f then blk f ++ a else a) acc = p ++ acc := by
  intro flags
  induction flags with
  | nil => exact fun acc => ⟨[], rfl⟩
  | cons f fs ih =>
    intro acc
    simp only [List.foldl_cons]
    by_cases hg : g f = true
    · obtain ⟨p, hp⟩ := ih (blk f ++ acc)
      exact ⟨p ++ blk f, by rw [if_pos hg, hp]; simp [List.append_assoc]⟩
    · obtain ⟨p, hp⟩ := ih acc
      exact ⟨p, by rw [if_neg hg, hp]⟩

/-- The flag loop of `_add_safety_warnings` emits the block of every flag
that passes the guard, ahead of the initial accumulator. -/
theorem foldl_prepend_mem (g : Str → Bool) (blk : Str → Str) :
    ∀ (flags : List Str) (acc flag : Str), flag ∈ flags → g flag = true →
      ∃ p q, flags.foldl (fun a f => if g f then blk f ++ a else a) acc =
        p ++ blk flag ++ (q ++ acc) := by
  intro flags
  induction flags with
  | nil => intro acc flag h; cases h
  | cons f fs ih =>
    intro acc flag hmem hg
    simp only [List.foldl_cons]
    rcases List.mem_cons.mp hmem with rfl | hmem'
    · obtain ⟨p, hp⟩ := foldl_prepend_suffix g blk fs (blk flag ++ acc)
      exact ⟨p, [], by rw [if_pos hg, hp]; simp [List.append_assoc]⟩
    · by_cases hgf : g f = true
      · obtain ⟨p, q, hpq⟩ := ih (blk f ++ acc) flag hmem' hg
        refine ⟨p, q ++ blk f, ?_⟩
        rw [if_pos hgf, hpq]
        simp [List.append_assoc]
      · obtain ⟨p, q, hpq⟩ := ih acc flag hmem' hg
        exact ⟨p, q, by rw [if_neg hgf, hpq]⟩

/-- `add_safety_warnings` only prepends to the response. -/
theorem add_safety_warnings_suffix (r : Str) (sr : SafetyResult) (ctx : PatientContext) :
    ∃ p, add_safety_warnings r sr ctx = p ++ r := by
  unfold add_safety_warnings
  obtain ⟨p, hp⟩ := foldl_prepend_suffix allergy_block_guard allergy_block sr.flags r
  by_cases hs : (sr.severity == str "high") = true
  · exact ⟨emergency_warning_text ++ p,
      by rw [if_pos hs, hp, add_emergency_warning]; simp [List.append_assoc]⟩
  · exact ⟨p, by rw [if_neg hs, hp]⟩

/-!
## Claim theorems
-/

/-- C1: `detect_emergency_symptoms` returns `true` exactly when some
keyword of the fixed emergency set occurs case-insensitively as a
substring of the input (so it returns `false` for keyword-free text), and
for any detected message `send_contextual_message` returns
`has_emergency=true` with the canned response containing the literal
instruction to call emergency services, for every patient context and
completion collaborator. -/
theorem C1_detect_and_emergency_chat (text : Str) :
    (detect_emergency_symptoms text = true ↔
      ∃ keyword ∈ EMERGENCY_KEYWORDS, keyword <:+: lowerStr text) ∧
    (detect_emergency_symptoms text = true →
      ∀ (client : Client) (db : Db) (user_id : Nat),
        dget (send_contextual_message client db user_id text).1 (str "has_emergency") =
          some (.b true) ∧
        dget (send_contextual_message client db user_id text).1 (str "response") =
          some (.s emergency_response_text) ∧
        str "Call emergency services (911) immediately" <:+: emergency_response_text) := by
  constructor
  · simp [detect_emergency_symptoms, List.any_eq_true, isSubB_iff]
  · intro h client db user_id
    have hsend : send_contextual_message client db user_id text =
        handle_emergency_response db user_id text := by
      simp [send_contextual_message, chat_pipeline, h, pure, Except.pure]
    rw [hsend]
    exact ⟨rfl, rfl, (isSubB_iff _ _).mp (by decide)⟩

/-- Witness for C1 at a concrete emergency message. -/
theorem C1_witness :
    detect_emergency_symptoms (str "I think I am having a heart attack") = true ∧
    dget (send_contextual_message sampleClient sampleDb 1
        (str "I think I am having a heart attack")).1 (str "has_emergency") =
      some (.b true) := by
  have h : detect_emergency_symptoms (str "I think I am having a heart attack") = true := by
    decide
  exact ⟨h, ((C1_detect_and_emergency_chat _).2 h sampleClient sampleDb 1).1⟩

/-- C2, counterexample to the claim as stated: `"chest pain"` contains an
emergency keyword, yet the treatment-plan entry point does not take the
emergency path — it performs no emergency check at all.  Concretely it
returns the degraded-service dict (its prompt build raises), persists
nothing (the store is returned unchanged), carries no `has_emergency` key,
and its `safety_flags` are not `["EMERGENCY_DETECTED"]`. -/
theorem C2_counterexample :
    detect_emergency_symptoms (str "chest pain") = true ∧
    generate_treatment_plan_with_context sampleClient sampleDb 1 (str "chest pain") =
      (treatment_error_dict (str "chest pain"), sampleDb) ∧
    dget (treatment_error_dict (str "chest pain")) (str "safety_flags") =
      some (.ls [str "Error occurred"]) ∧
    dget (treatment_error_dict (str "chest pain")) (str "has_emergency") = none := by
  refine ⟨by decide, by rfl, rfl, rfl⟩

/-- C2 as amended: the chat and symptom-analysis entry points (but not the
treatment-plan one) take the emergency path on any raw input containing an
emergency keyword, before any context aggregation or model call: the
result and the updated store are independent of the completion
collaborator and of the stored medical data, the response is the fixed
non-personalized emergency message, the exchange is persisted, and the
dict carries flag `EMERGENCY_DETECTED` and `has_emergency=true`. -/
theorem C2_amended (client : Client) (db : Db) (user_id : Nat) (message : Str)
    (h : detect_emergency_symptoms message = true) :
    send_contextual_message client db user_id message =
      (emergency_dict message, add_message db user_id message emergency_response_text) ∧
    analyze_symptoms_with_context client db user_id message =
      (emergency_dict message, add_message db user_id message emergency_response_text) ∧
    dget (emergency_dict message) (str "safety_flags") = some (.ls [str "EMERGENCY_DETECTED"]) ∧
    dget (emergency_dict message) (str "has_emergency") = some (.b true) ∧
    dget (emergency_dict message) (str "response") = some (.s emergency_response_text) := by
  refine ⟨?_, ?_, rfl, rfl, rfl⟩
  · simp [send_contextual_message, chat_pipeline, h, handle_emergency_response, pure, Except.pure]
  · simp [analyze_symptoms_with_context, symptom_pipeline, h, handle_emergency_response, pure,
      Except.pure]

/-- Witness for C2 (amended) at a concrete emergency message. -/
theorem C2_witness :
    detect_emergency_symptoms (str "severe bleeding from a cut") = true ∧
    send_contextual_message sampleClient sampleDb 1 (str "severe bleeding from a cut") =
      (emergency_dict (str "severe bleeding from a cut"),
       add_message sampleDb 1 (str "severe bleeding from a cut") emergency_response_text) := by
  have h : detect_emergency_symptoms (str "severe bleeding from a cut") = true := by decide
  exact ⟨h, (C2_amended sampleClient sampleDb 1 _ h).1⟩

/-- C7: whenever the `try` body of `send_contextual_message` raises
anywhere between context aggregation and finalization/persistence, the
orchestrator catches it and returns the degraded-service dict — flags
`["Error occurred"]`, `has_emergency=false`, the generic apology message —
and the store (hence the conversation log) is returned unchanged. -/
theorem C7_error_path (client : Client) (db : Db) (user_id : Nat) (message : Str) (e : PyErr)
    (h : chat_pipeline client db user_id message = .error e) :
    send_contextual_message client db user_id message = (chat_error_dict message, db) ∧
    dget (chat_error_dict message) (str "safety_flags") = some (.ls [str "Error occurred"]) ∧
    dget (chat_error_dict message) (str "has_emergency") = some (.b false) ∧
    dget (chat_error_dict message) (str "response") =
      some (.s (str "I apologize, but I encountered an error. Please try again or consult a healthcare provider.")) := by
  refine ⟨?_, rfl, rfl, rfl⟩
  simp [send_contextual_message, h]

/-- Witness for C7: with the source's templates the system-prompt build
raises `KeyError('conversation_context')`, and the orchestrator degrades
exactly as C7 states, leaving the store untouched. -/
theorem C7_witness :
    chat_pipeline sampleClient sampleDb 1 (str "hello") =
      .error (.keyError (str "conversation_context")) ∧
    send_contextual_message sampleClient sampleDb 1 (str "hello") =
      (chat_error_dict (str "hello"), sampleDb) := by
  have h : chat_pipeline sampleClient sampleDb 1 (str "hello") =
      .error (.keyError (str "conversation_context")) := by rfl
  exact ⟨h, (C7_error_path sampleClient sampleDb 1 (str "hello") _ h).1⟩

/-- C3: for every patient context carrying an allergy whose (non-empty)
allergen occurs case-insensitively in the model response, `check_response`
returns a flag naming that allergen, and the finalized response contains
the corresponding allergy-alert block positioned before the original
response body. -/
theorem C3_allergy_conflict_alert (r : Str) (ctx : PatientContext) (a : AllergyCtx)
    (ha : a ∈ ctx.allergies) (hne : lowerStr a.allergen ≠ [])
    (hsub : lowerStr a.allergen <:+: lowerStr r) :
    ∃ flag ∈ (check_response r ctx).flags,
      lowerStr a.allergen <:+: flag ∧
      ∃ p q, finalize_chat r (check_response r ctx) ctx =
        p ++ allergy_block flag ++ q ++ r ++ general_disclaimer_text := by
  have hisempty : (lowerStr a.allergen).isEmpty = false := by
    cases h : lowerStr a.allergen with
    | nil => exact absurd h hne
    | cons _ _ => rfl
  have hsubB : isSubB (lowerStr a.allergen) (lowerStr r) = true := (isSubB_iff _ _).mpr hsub
  have hconf : allergy_flag (lowerStr a.allergen) a.severity ∈ check_allergy_conflicts r ctx := by
    refine List.mem_filterMap.mpr ⟨a, ha, ?_⟩
    simp [hisempty, hsubB]
  have hdecomp : allergy_flag (lowerStr a.allergen) a.severity =
      str "\u26A0\uFE0F " ++ (str "ALLERGY ALERT" ++ (str ": Patient allergic to " ++
        (lowerStr a.allergen ++ (str " (" ++ (a.severity ++ str ")"))))) := by
    have hlit : str "\u26A0\uFE0F ALLERGY ALERT: Patient allergic to " =
        str "\u26A0\uFE0F " ++ str "ALLERGY ALERT" ++ str ": Patient allergic to " := by decide
    rw [allergy_flag, hlit]
    simp [List.append_assoc]
  have hflag : allergy_flag (lowerStr a.allergen) a.severity ∈ (check_response r ctx).flags := by
    simp only [check_response]
    simp [List.mem_append, hconf]
  have hname : lowerStr a.allergen <:+: allergy_flag (lowerStr a.allergen) a.severity := by
    refine ⟨str "\u26A0\uFE0F ALLERGY ALERT: Patient allergic to ",
      str " (" ++ (a.severity ++ str ")"), ?_⟩
    rw [allergy_flag]
    simp [List.append_assoc]
  have hgflag : allergy_block_guard (allergy_flag (lowerStr a.allergen) a.severity) = true := by
    rw [allergy_block_guard, Bool.and_eq_true]
    constructor
    · refine (isSubB_iff _ _).mpr ⟨str "\u26A0\uFE0F ",
        str ": Patient allergic to " ++ (lowerStr a.allergen ++ (str " (" ++ (a.severity ++ str ")"))), ?_⟩
      rw [hdecomp]
      simp [List.append_assoc]
    · rw [decide_eq_true_eq]
      apply split_on_length_gt_one
      rw [allergy_flag]
      refine List.mem_append.mpr (Or.inl ?_)
      refine List.mem_append.mpr (Or.inl ?_)
      refine List.mem_append.mpr (Or.inl ?_)
      refine List.mem_append.mpr (Or.inl ?_)
      decide
  obtain ⟨p, q, hfold⟩ := foldl_prepend_mem allergy_block_guard allergy_block
    (check_response r ctx).flags r (allergy_flag (lowerStr a.allergen) a.severity) hflag hgflag
  refine ⟨allergy_flag (lowerStr a.allergen) a.severity, hflag, hname, ?_⟩
  rw [finalize_chat, add_safety_warnings]
  by_cases hsev : ((check_response r ctx).severity == str "high") = true
  · refine ⟨emergency_warning_text ++ p, q, ?_⟩
    rw [if_pos hsev, hfold, add_emergency_warning, add_general_disclaimer]
    simp [List.append_assoc]
  · refine ⟨p, q, ?_⟩
    rw [if_neg hsev, hfold, add_general_disclaimer]
    simp [List.append_assoc]

/-- Witness for C3: a severe penicillin allergy and a response mentioning
penicillin. -/
theorem C3_witness :
    ∃ flag ∈ (check_response (str "Penicillin is commonly used") allergy_context).flags,
      lowerStr penicillin_allergy.allergen <:+: flag ∧
      ∃ p q, finalize_chat (str "Penicillin is commonly used")
          (check_response (str "Penicillin is commonly used") allergy_context) allergy_context =
        p ++ allergy_block flag ++ q ++ str "Penicillin is commonly used" ++
          general_disclaimer_text :=
  C3_allergy_conflict_alert (str "Penicillin is commonly used") allergy_context
    penicillin_allergy (by decide) (by decide) ((isSubB_iff _ _).mp (by decide))

/-- C4: the severity of a `check_response` result is `high` exactly when
the prescription check or an allergy conflict fired, else `medium` exactly
when the interaction reminder or the emergency-disclaimer check fired,
else `low` — in particular severity is only ever escalated within one
evaluation — and `has_concerns` holds iff the flag list is non-empty. -/
theorem C4_severity_and_concerns (r : Str) (ctx : PatientContext) :
    ((check_response r ctx).severity =
      if check_medication_prescription r = true ∨ check_allergy_conflicts r ctx ≠ [] then
        str "high"
      else if check_medication_interactions r ctx ≠ [] ∨ needs_emergency_disclaimer r = true then
        str "medium"
      else str "low") ∧
    ((check_response r ctx).has_concerns = true ↔ (check_response r ctx).flags ≠ []) := by
  have hbool : ∀ l : List Str, (!l.isEmpty) = true ↔ l ≠ [] := by
    intro l; cases l <;> simp
  constructor
  · cases hp : check_medication_prescription r <;>
      cases hc : check_allergy_conflicts r ctx <;>
        cases hi : check_medication_interactions r ctx <;>
          cases hd : needs_emergency_disclaimer r <;>
            simp [check_response, hp, hc, hi, hd] <;> try decide
  · simp only [check_response]
    exact hbool _

/-- C5: the claim says the composer is total (returns, does not raise) on
every `PatientContext`; in the source `SYSTEM_PROMPT` contains the
placeholder `conversation_context`, which `build_system_prompt` never
supplies to `format`, so the composer raises `KeyError` — here shown for
the empty context and for a context aggregated from a real store. -/
theorem C5_composer_raises :
    build_system_prompt empty_context = .error (.keyError (str "conversation_context")) ∧
    build_system_prompt (get_patient_context sampleDb 1) =
      .error (.keyError (str "conversation_context")) := by
  exact ⟨rfl, rfl⟩

/-- C6, counterexample to the claim as stated: running the chat finalizer
a second time on its own output duplicates the general disclaimer (it
occurs at two positions, not at most once). -/
theorem C6_counterexample :
    ¬ countOcc general_disclaimer_text
        (finalize_chat
          (finalize_chat (str "") (check_response (str "") empty_context) empty_context)
          (check_response (str "") empty_context) empty_context) ≤ 1 := by
  decide

/-- C6 as amended: every finalizer transformation is pure concatenation —
each warning/disclaimer generator prepends or appends its fixed block and
keeps the input intact, and the full chat finalization keeps the response
body contiguous followed by the general disclaimer — but the
transformations are not idempotent: a second run of the finalizer appends
the general disclaimer again, so it then occurs twice. -/
theorem C6_concat_and_duplication (r : Str) (sr : SafetyResult) (ctx : PatientContext)
    (allergen severity : Str) :
    add_emergency_warning r = emergency_warning_text ++ r ∧
    add_medication_disclaimer r = r ++ medication_disclaimer_text ∧
    add_allergy_alert r allergen severity = allergy_alert_text allergen severity ++ r ∧
    add_general_disclaimer r = r ++ general_disclaimer_text ∧
    (∃ p, finalize_chat r sr ctx = p ++ r ++ general_disclaimer_text) ∧
    (∃ p, finalize_chat (finalize_chat r sr ctx) sr ctx =
      p ++ r ++ general_disclaimer_text ++ general_disclaimer_text) := by
  refine ⟨rfl, rfl, rfl, rfl, ?_, ?_⟩
  · obtain ⟨p, hp⟩ := add_safety_warnings_suffix r sr ctx
    exact ⟨p, by rw [finalize_chat, hp, add_general_disclaimer]⟩
  · obtain ⟨p1, hp1⟩ := add_safety_warnings_suffix r sr ctx
    obtain ⟨p2, hp2⟩ := add_safety_warnings_suffix (finalize_chat r sr ctx) sr ctx
    refine ⟨p2 ++ p1, ?_⟩
    rw [finalize_chat, hp2, finalize_chat, hp1, add_general_disclaimer, add_general_disclaimer]
    simp [List.append_assoc]

/-- C8: `get_patient_context` is a total function; whenever the patient
record is missing or gathering the sub-sources raises, it returns the
fully-empty context, whose scalar fields are null and whose five list
fields are all empty (never null). -/
theorem C8_context_degrades (db : Db) (user_id : Nat)
    (h : db.users.find? (fun u => u.id == user_id) = none ∨
      ∃ user e, db.users.find? (fun u => u.id == user_id) = some user ∧
        gather_context db user user_id = .error e) :
    get_patient_context db user_id = empty_context ∧
    empty_context.age = none ∧ empty_context.gender = none ∧
    empty_context.full_name = none ∧
    empty_context.medical_history = [] ∧ empty_context.current_medications = [] ∧
    empty_context.allergies = [] ∧ empty_context.recent_symptoms = [] ∧
    empty_context.conversation_context = [] := by
  refine ⟨?_, rfl, rfl, rfl, rfl, rfl, rfl, rfl, rfl⟩
  rcases h with h | ⟨user, e, hu, he⟩
  · simp [get_patient_context, h]
  · simp [get_patient_context, hu, he]

/-- Witness for C8: a store with no such patient, and a store whose
condition sub-source raises. -/
theorem C8_witness :
    get_patient_context emptyUsersDb 5 = empty_context ∧
    get_patient_context failingDb 1 = empty_context := by
  refine ⟨(C8_context_degrades emptyUsersDb 5 (Or.inl rfl)).1,
    (C8_context_degrades failingDb 1 (Or.inr ⟨⟨1, some 30, some (str "female"),
      some (str "Jane Doe")⟩, .failure, rfl, rfl⟩)).1⟩

/-- C9: the interaction-category recommendation is dead code.  With one
current medication and the response `"medication"`, `check_response`
raises exactly the interaction flag, but that flag's text does not contain
the word `"interaction"` that `_generate_recommendations` tests for, so
the recommendations list is empty — the designated "discuss with
healthcare provider" recommendation is never produced for interaction
flags. -/
theorem C9_interaction_recommendation_missing :
    (check_response (str "medication") med_only_context).flags = [interaction_flag] ∧
    isSubB (str "interaction") (lowerStr interaction_flag) = false ∧
    (check_response (str "medication") med_only_context).recommendations = [] ∧
    generate_recommendations [interaction_flag] = [] := by
  exact ⟨by decide, by decide, by decide, by decide⟩

/-- C10, counterexample to the claim as stated: on an empty history the
context service's summary helper returns
`"No significant active medical conditions reported"`, not the claimed
`"No significant medical history reported"` (the latter is the
`PromptFormatter` empty-state string). -/
theorem C10_counterexample :
    get_medical_history_summary sampleDb 1 =
      .ok (str "No significant active medical conditions reported") ∧
    get_medical_history_summary sampleDb 1 ≠
      .ok (str "No significant medical history reported") := by
  have h1 : get_medical_history_summary sampleDb 1 =
      .ok (str "No significant active medical conditions reported") := by rfl
  refine ⟨h1, ?_⟩
  intro h2
  have h3 : (Except.ok (str "No significant active medical conditions reported") :
      Except DbErr Str) = .ok (str "No significant medical history reported") :=
    h1 ▸ h2
  have h4 := Except.ok.inj h3
  exact absurd h4 (by decide)

/-- C10 as amended: for a patient with zero conditions, medications,
allergies and symptoms, every list-formatting helper returns its
designated non-empty empty-state string — which for the medical history is
`"No significant active medical conditions reported"` in the context
service's summary and `"No significant medical history reported"` in the
prompt formatter — and never an empty string or null. -/
theorem C10_empty_state_strings (db : Db) (user_id : Nat)
    (hc : db.active_conditions user_id = .ok [])
    (hm : db.active_medications user_id = .ok [])
    (ha : db.allergies user_id = .ok [])
    (hs : db.recent_symptoms user_id 30 = .ok []) :
    get_medical_history_summary db user_id =
      .ok (str "No significant active medical conditions reported") ∧
    get_current_medications_summary db user_id = .ok (str "No current medications reported") ∧
    get_allergies_summary db user_id = .ok (str "No known allergies") ∧
    get_recent_symptoms_summary db user_id 30 = .ok (str "No recent symptoms logged") ∧
    format_medical_history [] = str "No significant medical history reported" ∧
    format_medications [] = str "No current medications reported" ∧
    format_allergies [] = str "No known allergies" ∧
    format_recent_symptoms [] = str "No recent symptoms logged" ∧
    str "No significant active medical conditions reported" ≠ [] ∧
    str "No significant medical history reported" ≠ [] ∧
    str "No current medications reported" ≠ [] ∧
    str "No known allergies" ≠ [] ∧
    str "No recent symptoms logged" ≠ [] := by
  refine ⟨?_, ?_, ?_, ?_, rfl, rfl, rfl, rfl,
    by decide, by decide, by decide, by decide, by decide⟩
  · simp [get_medical_history_summary, hc, bind, Except.bind, pure, Except.pure]
  · simp [get_current_medications_summary, hm, bind, Except.bind, pure, Except.pure]
  · simp [get_allergies_summary, ha, bind, Except.bind, pure, Except.pure]
  · simp [get_recent_symptoms_summary, hs, bind, Except.bind, pure, Except.pure]

/-- Witness for C10 (amended) at a concrete empty store. -/
theorem C10_witness :
    get_medical_history_summary sampleDb 1 =
      .ok (str "No significant active medical conditions reported") ∧
    get_allergies_summary sampleDb 1 = .ok (str "No known allergies") :=
  ⟨(C10_empty_state_strings sampleDb 1 rfl rfl rfl rfl).1,
   (C10_empty_state_strings sampleDb 1 rfl rfl rfl rfl).2.2.1⟩

end HealthAI
